import Mathlib

/-!
Verification of the libcryptoplus handle wrappers: a shallow embedding of
`rsa_key` (include/cryptopen/pkey/rsa_key.hpp) and `certificate`
(include/cryptoplus/x509/certificate.hpp).

Raw C pointers are modelled as natural-number addresses, with `0` playing the
role of `NULL`.  External OpenSSL calls (`RSA_new`, `X509_new`,
`PEM_read_bio_X509`, `RSA_blinding_on`, ...) are oracles: their results are
parameters of the embedded operations, so theorems quantify over every
possible library behaviour.
-/

namespace Cryptoplus

/-- A raw C address. `0` models `NULL`. -/
abbrev Addr := Nat

/-- The deleters that ever get bound in the two headers: `RSA_free`,
`X509_free`, and the no-op `name::null_deleter` used for non-owning views. -/
inductive Deleter where
  | rsaFree
  | x509Free
  | nullDeleter
  deriving DecidableEq, Repr

/-- Whether invoking this deleter actually releases the pointed-to object.
`name::null_deleter` is a no-op; the library free functions release. -/
def Deleter.frees : Deleter → Bool
  | .nullDeleter => false
  | .rsaFree => true
  | .x509Free => true

/-- A `boost::shared_ptr<T>` value as stored in a wrapper: the raw address it
carries and the deleter bound at construction. -/
structure OwnedHandle where
  addr : Addr
  deleter : Deleter
  deriving DecidableEq, Repr

/-- The two failure types of the error-handling design: `cryptographic_exception`
(carrying the library error queue) and `std::invalid_argument` (carrying the
message string passed at the throw site). -/
inductive Err where
  | cryptographicError (queue : List Nat)
  | invalidArgument (what : String)
  deriving DecidableEq, Repr

/-- Modelled from the spec: `error::throw_error_if_not`
(error/cryptographic_exception.hpp, which is not under src/).  It checks the
library convention — truthy means success — and on failure raises a
`CryptographicError` carrying the library's error queue. -/
def throw_error_if_not (ok : Bool) (queue : List Nat) : Except Err Unit :=
  if ok then .ok () else .error (.cryptographicError queue)

/-! ## rsa_key (cryptopen/pkey/rsa_key.hpp) -/

/-- Embeds `class rsa_key`: its single data member `m_rsa` is a
`boost::shared_ptr<RSA>`. -/
structure rsa_key where
  m_rsa : OwnedHandle
  deriving DecidableEq, Repr

/-- Embeds `RSA* rsa_key::raw()` — returns `m_rsa.get()`. -/
def rsa_key.raw (k : rsa_key) : Addr := k.m_rsa.addr

/-- Embeds `operator==(const rsa_key&, const rsa_key&)` —
`return lhs.raw() == rhs.raw();`. -/
def rsa_key_eq (lhs rhs : rsa_key) : Bool := lhs.raw == rhs.raw

/-- Embeds `operator!=(const rsa_key&, const rsa_key&)` —
`return lhs.raw() != rhs.raw();`. -/
def rsa_key_ne (lhs rhs : rsa_key) : Bool := lhs.raw != rhs.raw

/-- Embeds `rsa_key::rsa_key()` — `m_rsa(RSA_new(), RSA_free)` followed by
`error::throw_error_if_not(m_rsa)`.  `rsaNewResult` is the address returned by
the external allocator `RSA_new` (0 when allocation fails); `queue` is the
library error queue at the call. -/
def rsa_key.default (rsaNewResult : Addr) (queue : List Nat) : Except Err rsa_key :=
  let m_rsa : OwnedHandle := ⟨rsaNewResult, .rsaFree⟩
  match throw_error_if_not (m_rsa.addr != 0) queue with
  | .error e => .error e
  | .ok () => .ok ⟨m_rsa⟩

/-- What `rsa_key::generate` hands to the external generator
`RSA_generate_key`: the modulus size, the exponent, and the callback pair,
exactly as received. -/
structure GenerateCall where
  num : Int
  exponent : Nat
  callback : Addr
  callbackArg : Addr
  deriving DecidableEq, Repr

/-- Modelled from the spec: `rsa_key::generate` (declared at rsa_key.hpp:83,
implementation not under src/).  Per the spec's public contract for generate,
the arguments are forwarded to the library generator and failure — "any
generation error, including invalid parameters" — is reported as a
`CryptographicError`; `generate(2048, 4)` (even exponent) raises
`CryptographicError`.  `lib` is the external generator oracle (0 = NULL on
failure).  The returned `GenerateCall` records the invocation the wrapper made
on the library. -/
def rsa_key.generate (lib : GenerateCall → Addr) (num : Int) (exponent : Nat)
    (callback : Addr) (callbackArg : Addr) (queue : List Nat) :
    Except Err rsa_key × GenerateCall :=
  let call : GenerateCall := ⟨num, exponent, callback, callbackArg⟩
  let r := lib call
  (match throw_error_if_not (r != 0) queue with
   | .error e => .error e
   | .ok () => .ok ⟨⟨r, .rsaFree⟩⟩, call)

/-- Discriminator: whether an outcome of generate is an invalid-argument
failure (as opposed to a cryptographic failure or a success). -/
def raisesInvalidArgument : Except Err rsa_key → Bool
  | .error (.invalidArgument _) => true
  | _ => false

/-- Effects the wrapper itself performs on a caller-supplied address during a
call (as opposed to whatever the library does internally). -/
inductive Effect where
  | passedToLibrary (a : Addr)
  | freed (a : Addr)
  | stored (a : Addr)
  deriving DecidableEq, Repr

/-- Embeds `void rsa_key::enable_blinding(BN_CTX* ctx)` —
`error::throw_error_if_not(RSA_blinding_on(m_rsa.get(), ctx));`.
`lib` is the external `RSA_blinding_on` oracle taking the raw RSA address and
the caller's ctx.  The result triple is: outcome, the wrapper object after the
call, and the effects the wrapper performed on `ctx`. -/
def rsa_key.enable_blinding (lib : Addr → Addr → Int) (k : rsa_key) (ctx : Addr)
    (queue : List Nat) : Except Err Unit × rsa_key × List Effect :=
  let ret := lib k.m_rsa.addr ctx
  (throw_error_if_not (ret != 0) queue, k, [.passedToLibrary ctx])

/-- The members of `class rsa_key` as declared in rsa_key.hpp, in order:
`generate` (line 83), the default constructor (line 90), `enable_blinding`
(line 98), `disable_blinding` (line 104), the two `raw` overloads (lines
111, 118), and the `explicit rsa_key(boost::shared_ptr<RSA>)` constructor
(line 122). -/
inductive RsaKeyMember where
  | generate
  | defaultConstructor
  | enableBlinding
  | disableBlinding
  | raw
  | rawConst
  | sharedPtrConstructor
  deriving DecidableEq, Repr

/-- Access level as written in the header: every member before the
`private:` label (rsa_key.hpp:120) is public; the `shared_ptr` constructor
follows it. -/
def RsaKeyMember.isPublic : RsaKeyMember → Bool
  | .sharedPtrConstructor => false
  | _ => true

/-- Whether the member creates an `rsa_key` by receiving ownership of an
already-allocated RSA key (it is handed a pre-existing `RSA*`/`shared_ptr<RSA>`
rather than allocating or generating the key itself).  Only the
`shared_ptr<RSA>` constructor does. -/
def RsaKeyMember.receivesExistingKey : RsaKeyMember → Bool
  | .sharedPtrConstructor => true
  | _ => false

/-- Whether the member is a creation path at all (produces a new `rsa_key`
value): `generate`, the default constructor, and the `shared_ptr`
constructor. -/
def RsaKeyMember.isCreation : RsaKeyMember → Bool
  | .generate => true
  | .defaultConstructor => true
  | .sharedPtrConstructor => true
  | _ => false

/-! ## certificate (cryptoplus/x509/certificate.hpp) -/

/-- Embeds `class certificate`: its single data member `m_x509` is a
`boost::shared_ptr<X509>`. -/
structure certificate where
  m_x509 : OwnedHandle
  deriving DecidableEq, Repr

/-- Embeds `X509* certificate::raw()` — returns `m_x509.get()`. -/
def certificate.raw (c : certificate) : Addr := c.m_x509.addr

/-- Embeds `operator==(const certificate&, const certificate&)` —
`return lhs.raw() == rhs.raw();`. -/
def certificate_eq (lhs rhs : certificate) : Bool := lhs.raw == rhs.raw

/-- Embeds `operator!=(const certificate&, const certificate&)` —
`return lhs.raw() != rhs.raw();`. -/
def certificate_ne (lhs rhs : certificate) : Bool := lhs.raw != rhs.raw

/-- Embeds `certificate::certificate()` — `m_x509(X509_new(), X509_free)` followed by
`error::throw_error_if_not(m_x509)`.  `x509NewResult` is the external
`X509_new` result (0 on allocation failure). -/
def certificate.default (x509NewResult : Addr) (queue : List Nat) : Except Err certificate :=
  let m_x509 : OwnedHandle := ⟨x509NewResult, .x509Free⟩
  match throw_error_if_not (m_x509.addr != 0) queue with
  | .error e => .error e
  | .ok () => .ok ⟨m_x509⟩

/-- Embeds `explicit certificate::certificate(X509* x509)` —
`m_x509(x509, X509_free)`, then `if (!m_x509) throw
std::invalid_argument("certificate");`. -/
def certificate.from_raw (x509 : Addr) : Except Err certificate :=
  let m_x509 : OwnedHandle := ⟨x509, .x509Free⟩
  if m_x509.addr = 0 then .error (.invalidArgument "certificate")
  else .ok ⟨m_x509⟩

/-- Embeds `explicit certificate::certificate(boost::shared_ptr<X509> x509)` —
`m_x509(x509)` then `error::throw_error_if_not(m_x509)`. -/
def certificate.ofShared (x509 : OwnedHandle) (queue : List Nat) : Except Err certificate :=
  match throw_error_if_not (x509.addr != 0) queue with
  | .error e => .error e
  | .ok () => .ok ⟨x509⟩

/-- The argument tuple a PEM load hands to the external PEM decoder
(`PEM_read_bio_X509`, `PEM_read_bio_X509_AUX`, `PEM_read_X509`,
`PEM_read_X509_AUX`): the source (BIO or FILE address), the destination
`X509**`, the passphrase callback, and its argument. -/
structure DecoderCall where
  source : Addr
  destination : Addr
  callback : Addr
  callbackArg : Addr
  deriving DecidableEq, Repr

/-- A PEM decoder oracle: from the call arguments to the returned `X509*`
address (0 = NULL on failure). -/
abbrev PemDecoder := DecoderCall → Addr

/-- Embeds `certificate::from_certificate(bio::bio_ptr, ...)` —
`certificate(boost::shared_ptr<X509>(PEM_read_bio_X509(bio.raw(), NULL,
callback, callback_arg), X509_free))`.  `dec` is the `PEM_read_bio_X509`
oracle; note the literal NULL (0) destination. -/
def certificate.from_certificate_bio (dec : PemDecoder) (bioRaw : Addr)
    (callback : Addr) (callbackArg : Addr) (queue : List Nat) : Except Err certificate :=
  certificate.ofShared ⟨dec ⟨bioRaw, 0, callback, callbackArg⟩, .x509Free⟩ queue

/-- Embeds `certificate::from_trusted_certificate(bio::bio_ptr, ...)` — same shape
with `PEM_read_bio_X509_AUX`. -/
def certificate.from_trusted_certificate_bio (dec : PemDecoder) (bioRaw : Addr)
    (callback : Addr) (callbackArg : Addr) (queue : List Nat) : Except Err certificate :=
  certificate.ofShared ⟨dec ⟨bioRaw, 0, callback, callbackArg⟩, .x509Free⟩ queue

/-- Embeds `certificate::from_certificate(FILE*, ...)` — same shape with
`PEM_read_X509` on the file address. -/
def certificate.from_certificate_file (dec : PemDecoder) (file : Addr)
    (callback : Addr) (callbackArg : Addr) (queue : List Nat) : Except Err certificate :=
  certificate.ofShared ⟨dec ⟨file, 0, callback, callbackArg⟩, .x509Free⟩ queue

/-- Embeds `certificate::from_trusted_certificate(FILE*, ...)` — same shape with
`PEM_read_X509_AUX`. -/
def certificate.from_trusted_certificate_file (dec : PemDecoder) (file : Addr)
    (callback : Addr) (callbackArg : Addr) (queue : List Nat) : Except Err certificate :=
  certificate.ofShared ⟨dec ⟨file, 0, callback, callbackArg⟩, .x509Free⟩ queue

/-- The fields of an X509 object this development looks at: the addresses of
its embedded subject and issuer `X509_NAME` structures, as returned by the
external accessors `X509_get_subject_name` / `X509_get_issuer_name`. -/
structure X509Obj where
  subjectName : Addr
  issuerName : Addr
  deriving DecidableEq, Repr

/-- Modelled from the spec: `class name` (x509/name.hpp, not under src/) wraps
a `boost::shared_ptr<X509_NAME>`; `name::null_deleter` is a no-op deleter for
non-owning views. -/
structure name where
  handle : OwnedHandle
  deriving DecidableEq, Repr

/-- Embeds `name certificate::subject()` —
`name(boost::shared_ptr<X509_NAME>(X509_get_subject_name(m_x509.get()),
name::null_deleter))`.  `heap` gives, per X509 address, the object's inner
name addresses. -/
def certificate.subject (heap : Addr → X509Obj) (c : certificate) : name :=
  ⟨⟨(heap c.m_x509.addr).subjectName, .nullDeleter⟩⟩

/-- Embeds `name certificate::issuer()` — same with `X509_get_issuer_name`. -/
def certificate.issuer (heap : Addr → X509Obj) (c : certificate) : name :=
  ⟨⟨(heap c.m_x509.addr).issuerName, .nullDeleter⟩⟩

/-! ## Shared-ownership lifetime model

Modelled from the spec: the reference-counted owner (`boost::shared_ptr`,
specified as OwnedHandle in the design) is not under src/.  A construction
creates one cell with refcount 1 and the deleter bound once and for all;
copying a live handle increases the refcount; dropping a live handle
decreases it and, exactly when the count reaches zero, invokes the bound
deleter. -/

/-- The state of one shared-ownership cell: the deleter bound at
construction, the number of live copies, and the number of deleter
invocations performed so far. -/
structure Cell where
  deleter : Deleter
  refcount : Nat
  deleterCalls : Nat
  deriving DecidableEq, Repr

/-- The lifetime events of a cell: copy-construct another handle from a live
one, or drop a live handle. -/
inductive HOp where
  | copy
  | drop
  deriving DecidableEq, Repr

/-- A fresh cell as produced by constructing a wrapper: one live handle, no
deleter call yet. -/
def Cell.init (d : Deleter) : Cell := ⟨d, 1, 0⟩

/-- One lifetime event.  Both events require a live handle (refcount > 0);
`drop` fires the bound deleter exactly when the last copy goes away. -/
def Cell.step (c : Cell) : HOp → Option Cell
  | .copy =>
    if c.refcount = 0 then none
    else some { c with refcount := c.refcount + 1 }
  | .drop =>
    if c.refcount = 0 then none
    else some { c with
      refcount := c.refcount - 1,
      deleterCalls := if c.refcount = 1 then c.deleterCalls + 1 else c.deleterCalls }

/-- Run a sequence of lifetime events. -/
def Cell.run (c : Cell) : List HOp → Option Cell
  | [] => some c
  | op :: ops =>
    match c.step op with
    | none => none
    | some c' => c'.run ops

/-- How many times the underlying object has actually been released: deleter
invocations that reached a freeing deleter (the no-op `name::null_deleter`
never releases). -/
def Cell.frees (c : Cell) : Nat :=
  if c.deleter.frees then c.deleterCalls else 0


/-! ## Lifetime invariant -/

/-- Helper: along any run, the bound deleter never changes and the deleter has
been invoked exactly once if the refcount is zero and never otherwise. -/
theorem Cell.run_inv (d : Deleter) (ops : List HOp) (c c' : Cell)
    (hd : c.deleter = d)
    (hinv : c.deleterCalls = (if c.refcount = 0 then 1 else 0))
    (h : c.run ops = some c') :
    c'.deleter = d ∧ c'.deleterCalls = (if c'.refcount = 0 then 1 else 0) := by
  induction ops generalizing c with
  | nil =>
    simp only [Cell.run] at h
    cases h
    exact ⟨hd, hinv⟩
  | cons op ops ih =>
    simp only [Cell.run] at h
    cases hstep : c.step op with
    | none => rw [hstep] at h; exact absurd h (by simp)
    | some c1 =>
      rw [hstep] at h
      have hrc : ¬ c.refcount = 0 := by
        cases op <;> simp only [Cell.step] at hstep <;> split at hstep <;> simp_all
      have hcalls : c.deleterCalls = 0 := by simp [hinv, hrc]
      cases op with
      | copy =>
        simp only [Cell.step, if_neg hrc] at hstep
        replace hstep := Option.some.inj hstep
        refine ih c1 ?_ ?_ h
        · rw [← hstep]; exact hd
        · rw [← hstep]; simp [hcalls]
      | drop =>
        simp only [Cell.step, if_neg hrc] at hstep
        replace hstep := Option.some.inj hstep
        refine ih c1 ?_ ?_ h
        · rw [← hstep]; exact hd
        · rw [← hstep]
          by_cases h1 : c.refcount = 1
          · simp [h1, hcalls]
          · have hsub : ¬ c.refcount - 1 = 0 := by omega
            simp [h1, hcalls, hsub]

/-! ## Claim theorems -/

/-- C1: for any handle (rsa_key or certificate) and any tree of copies made
from one construction, the deleter bound at construction is invoked exactly
once, after the last copy drops, and never before: along any run of lifetime
events the bound deleter never changes, the deleter call count is 1 exactly
when the refcount has reached 0 and 0 while copies are still live; and the
constructors bind precisely RSA_free for rsa_key and X509_free for
certificate. -/
theorem C1_exactly_once_deleter :
    (∀ (d : Deleter) (ops : List HOp) (c' : Cell),
        Cell.run (Cell.init d) ops = some c' →
          c'.deleter = d ∧ c'.deleterCalls = (if c'.refcount = 0 then 1 else 0)) ∧
    (∀ (r : Addr) (q : List Nat) (k : rsa_key),
        rsa_key.default r q = Except.ok k → k.m_rsa.deleter = Deleter.rsaFree) ∧
    (∀ (r : Addr) (q : List Nat) (c : certificate),
        certificate.default r q = Except.ok c → c.m_x509.deleter = Deleter.x509Free) := by
  refine ⟨?_, ?_, ?_⟩
  · intro d ops c' h
    exact Cell.run_inv d ops (Cell.init d) c' rfl (by simp [Cell.init]) h
  · intro r q k h
    by_cases hr : r = 0
    · simp [rsa_key.default, throw_error_if_not, hr] at h
    · simp [rsa_key.default, throw_error_if_not, hr] at h
      rw [← h]
  · intro r q c h
    by_cases hr : r = 0
    · simp [certificate.default, throw_error_if_not, hr] at h
    · simp [certificate.default, throw_error_if_not, hr] at h
      rw [← h]

/-- Witness for C1: construct with RSA_free bound, copy once, drop twice; the
final cell has refcount 0 and exactly one deleter call. -/
theorem C1_exactly_once_deleter_witness :
    (⟨Deleter.rsaFree, 0, 1⟩ : Cell).deleter = Deleter.rsaFree ∧
    (⟨Deleter.rsaFree, 0, 1⟩ : Cell).deleterCalls =
      (if (⟨Deleter.rsaFree, 0, 1⟩ : Cell).refcount = 0 then 1 else 0) :=
  C1_exactly_once_deleter.1 Deleter.rsaFree [HOp.copy, HOp.drop, HOp.drop]
    ⟨Deleter.rsaFree, 0, 1⟩ (by decide)

/-- C2: for every pair of rsa_key values, and likewise of certificate values,
operator== returns true iff the raw() addresses are equal and operator!=
returns true iff they differ; equality is a function of the raw addresses
alone, so it never depends on anything behind the pointer. -/
theorem C2_identity_equality :
    (∀ lhs rhs : rsa_key,
        (rsa_key_eq lhs rhs = true ↔ lhs.raw = rhs.raw) ∧
        (rsa_key_ne lhs rhs = true ↔ lhs.raw ≠ rhs.raw)) ∧
    (∀ lhs rhs : certificate,
        (certificate_eq lhs rhs = true ↔ lhs.raw = rhs.raw) ∧
        (certificate_ne lhs rhs = true ↔ lhs.raw ≠ rhs.raw)) ∧
    (∀ l r l' r' : rsa_key, l.raw = l'.raw → r.raw = r'.raw →
        rsa_key_eq l r = rsa_key_eq l' r') ∧
    (∀ l r l' r' : certificate, l.raw = l'.raw → r.raw = r'.raw →
        certificate_eq l r = certificate_eq l' r') := by
  refine ⟨?_, ?_, ?_, ?_⟩
  · intro lhs rhs
    exact ⟨by simp [rsa_key_eq], by simp [rsa_key_ne]⟩
  · intro lhs rhs
    exact ⟨by simp [certificate_eq], by simp [certificate_ne]⟩
  · intro l r l' r' hl hr
    simp [rsa_key_eq, hl, hr]
  · intro l r l' r' hl hr
    simp [certificate_eq, hl, hr]

/-- Witness for C2: two rsa_key values at the same address compare equal
regardless of the deleter component of the handles. -/
theorem C2_identity_equality_witness :
    rsa_key_eq ⟨⟨3, Deleter.rsaFree⟩⟩ ⟨⟨4, Deleter.rsaFree⟩⟩ =
      rsa_key_eq ⟨⟨3, Deleter.nullDeleter⟩⟩ ⟨⟨4, Deleter.nullDeleter⟩⟩ :=
  C2_identity_equality.2.2.1 _ _ _ _ rfl rfl

/-- C3: every PEM certificate load — plain or trusted, from a BIO stream or a
FILE — invokes the decoder with a null (0) destination; when the decoder
returns null the load fails with a CryptographicError carrying the error
queue, and otherwise the returned address is bound to the X509_free deleter
inside the owning handle. -/
theorem C3_pem_load_null_destination (dec : PemDecoder) (src cb arg : Addr)
    (queue : List Nat) :
    (certificate.from_certificate_bio dec src cb arg queue =
      if dec ⟨src, 0, cb, arg⟩ = 0 then Except.error (Err.cryptographicError queue)
      else Except.ok ⟨⟨dec ⟨src, 0, cb, arg⟩, Deleter.x509Free⟩⟩) ∧
    (certificate.from_trusted_certificate_bio dec src cb arg queue =
      if dec ⟨src, 0, cb, arg⟩ = 0 then Except.error (Err.cryptographicError queue)
      else Except.ok ⟨⟨dec ⟨src, 0, cb, arg⟩, Deleter.x509Free⟩⟩) ∧
    (certificate.from_certificate_file dec src cb arg queue =
      if dec ⟨src, 0, cb, arg⟩ = 0 then Except.error (Err.cryptographicError queue)
      else Except.ok ⟨⟨dec ⟨src, 0, cb, arg⟩, Deleter.x509Free⟩⟩) ∧
    (certificate.from_trusted_certificate_file dec src cb arg queue =
      if dec ⟨src, 0, cb, arg⟩ = 0 then Except.error (Err.cryptographicError queue)
      else Except.ok ⟨⟨dec ⟨src, 0, cb, arg⟩, Deleter.x509Free⟩⟩) := by
  by_cases h : dec ⟨src, 0, cb, arg⟩ = 0 <;>
    refine ⟨?_, ?_, ?_, ?_⟩ <;>
      simp [certificate.from_certificate_bio, certificate.from_trusted_certificate_bio,
        certificate.from_certificate_file, certificate.from_trusted_certificate_file,
        certificate.ofShared, throw_error_if_not, h]

/-- C4: the take-ownership constructor certificate(X509*) fails with
InvalidArgument on a null address, succeeds binding X509_free on every
non-null address, and InvalidArgument is distinct from CryptographicError. -/
theorem C4_from_raw (a : Addr) :
    (certificate.from_raw 0 = Except.error (Err.invalidArgument "certificate")) ∧
    (a ≠ 0 → certificate.from_raw a = Except.ok ⟨⟨a, Deleter.x509Free⟩⟩) ∧
    (∀ (s : String) (q : List Nat), Err.invalidArgument s ≠ Err.cryptographicError q) := by
  refine ⟨rfl, ?_, ?_⟩
  · intro ha
    simp [certificate.from_raw, ha]
  · intro s q h
    cases h

/-- Witness for C4: taking ownership of the non-null address 7 succeeds. -/
theorem C4_from_raw_witness :
    certificate.from_raw 7 = Except.ok ⟨⟨7, Deleter.x509Free⟩⟩ :=
  (C4_from_raw 7).2.1 (by decide)

/-- C5: a default-constructed rsa_key or certificate either holds the freshly
allocated non-null address with the proper deleter bound, or construction
fails with a CryptographicError; a successful construction never exposes a
null raw() address. -/
theorem C5_default_construct (r : Addr) (q : List Nat) :
    (r = 0 → rsa_key.default r q = Except.error (Err.cryptographicError q)) ∧
    (r ≠ 0 → rsa_key.default r q = Except.ok ⟨⟨r, Deleter.rsaFree⟩⟩) ∧
    (∀ k, rsa_key.default r q = Except.ok k → k.raw ≠ 0) ∧
    (r = 0 → certificate.default r q = Except.error (Err.cryptographicError q)) ∧
    (r ≠ 0 → certificate.default r q = Except.ok ⟨⟨r, Deleter.x509Free⟩⟩) ∧
    (∀ c, certificate.default r q = Except.ok c → c.raw ≠ 0) := by
  refine ⟨?_, ?_, ?_, ?_, ?_, ?_⟩
  · intro hr
    simp [rsa_key.default, throw_error_if_not, hr]
  · intro hr
    simp [rsa_key.default, throw_error_if_not, hr]
  · intro k h
    by_cases hr : r = 0
    · simp [rsa_key.default, throw_error_if_not, hr] at h
    · simp [rsa_key.default, throw_error_if_not, hr] at h
      rw [← h]
      simpa [rsa_key.raw] using hr
  · intro hr
    simp [certificate.default, throw_error_if_not, hr]
  · intro hr
    simp [certificate.default, throw_error_if_not, hr]
  · intro c h
    by_cases hr : r = 0
    · simp [certificate.default, throw_error_if_not, hr] at h
    · simp [certificate.default, throw_error_if_not, hr] at h
      rw [← h]
      simpa [certificate.raw] using hr

/-- Witness for C5: allocation at address 5 succeeds with RSA_free bound;
allocation failure (null) raises a CryptographicError with the queue. -/
theorem C5_default_construct_witness :
    rsa_key.default 5 [] = Except.ok ⟨⟨5, Deleter.rsaFree⟩⟩ ∧
    certificate.default 0 [3] = Except.error (Err.cryptographicError [3]) :=
  ⟨(C5_default_construct 5 []).2.1 (by decide), (C5_default_construct 0 [3]).2.2.2.1 rfl⟩

/-- C6 counterexample: calling generate with the even exponent 4 and modulus
size 2048 against a library that rejects the parameters does reach the
library with exactly those arguments, and the failure is a CryptographicError
carrying the error queue — not an InvalidArgument detected beforehand. -/
theorem C6_counterexample :
    (rsa_key.generate (fun _ => 0) 2048 4 0 0 [7]).2 = ⟨2048, 4, 0, 0⟩ ∧
    (rsa_key.generate (fun _ => 0) 2048 4 0 0 [7]).1 =
      Except.error (Err.cryptographicError [7]) ∧
    raisesInvalidArgument (rsa_key.generate (fun _ => 0) 2048 4 0 0 [7]).1 = false :=
  ⟨rfl, rfl, rfl⟩

/-- C6 (amended): generate forwards its arguments to the library generator
unvalidated — even public exponents and nonpositive modulus sizes included —
and every failure is signaled as a CryptographicError carrying the library
error queue, never as an InvalidArgument. -/
theorem C6_generate_error_mapping (lib : GenerateCall → Addr) (num : Int)
    (exponent : Nat) (cb arg : Addr) (queue : List Nat) :
    ((rsa_key.generate lib num exponent cb arg queue).2 = ⟨num, exponent, cb, arg⟩) ∧
    (raisesInvalidArgument (rsa_key.generate lib num exponent cb arg queue).1 = false) ∧
    (lib ⟨num, exponent, cb, arg⟩ = 0 →
      (rsa_key.generate lib num exponent cb arg queue).1 =
        Except.error (Err.cryptographicError queue)) ∧
    (lib ⟨num, exponent, cb, arg⟩ ≠ 0 →
      (rsa_key.generate lib num exponent cb arg queue).1 =
        Except.ok ⟨⟨lib ⟨num, exponent, cb, arg⟩, Deleter.rsaFree⟩⟩) := by
  refine ⟨rfl, ?_, ?_, ?_⟩
  · by_cases h : lib ⟨num, exponent, cb, arg⟩ = 0 <;>
      simp [rsa_key.generate, throw_error_if_not, raisesInvalidArgument, h]
  · intro h
    simp [rsa_key.generate, throw_error_if_not, h]
  · intro h
    simp [rsa_key.generate, throw_error_if_not, h]

/-- Witness for C6 (amended): a library that returns address 9 makes generate
succeed with that address bound to RSA_free. -/
theorem C6_generate_error_mapping_witness :
    (rsa_key.generate (fun _ => 9) 2048 65537 0 0 []).1 =
      Except.ok ⟨⟨9, Deleter.rsaFree⟩⟩ :=
  (C6_generate_error_mapping (fun _ => 9) 2048 65537 0 0 []).2.2.2 (by decide)

/-- C7 counterexample: no public member of rsa_key creates a key by receiving
ownership of an already-allocated key; the only ownership-receiving member,
the shared_ptr constructor, sits below the private label. -/
theorem C7_counterexample :
    ¬ ∃ m : RsaKeyMember, m.isPublic = true ∧ m.receivesExistingKey = true := by
  rintro ⟨m, h1, h2⟩
  cases m <;> simp_all [RsaKeyMember.isPublic, RsaKeyMember.receivesExistingKey]

/-- C7 (amended): the rsa_key class contains all three creation paths — fresh
allocation (default constructor), generation (generate), and receiving
ownership of an already-allocated key (the shared_ptr constructor) — and the
first two are public, but the ownership-receiving constructor is private, so
the public interface offers no take-ownership creation. -/
theorem C7_creation_paths :
    RsaKeyMember.isCreation RsaKeyMember.defaultConstructor = true ∧
    RsaKeyMember.isPublic RsaKeyMember.defaultConstructor = true ∧
    RsaKeyMember.isCreation RsaKeyMember.generate = true ∧
    RsaKeyMember.isPublic RsaKeyMember.generate = true ∧
    RsaKeyMember.isCreation RsaKeyMember.sharedPtrConstructor = true ∧
    RsaKeyMember.receivesExistingKey RsaKeyMember.sharedPtrConstructor = true ∧
    RsaKeyMember.isPublic RsaKeyMember.sharedPtrConstructor = false := by
  decide

/-- C8: subject() and issuer() return views whose handle is bound to the
no-op null_deleter, and a handle constructed with the null_deleter never
frees the underlying object along any run of copy and drop events. -/
theorem C8_views_noop_deleter :
    (∀ (heap : Addr → X509Obj) (c : certificate),
        (certificate.subject heap c).handle.deleter = Deleter.nullDeleter ∧
        (certificate.issuer heap c).handle.deleter = Deleter.nullDeleter) ∧
    (∀ (ops : List HOp) (c' : Cell),
        Cell.run (Cell.init Deleter.nullDeleter) ops = some c' → c'.frees = 0) := by
  refine ⟨fun heap c => ⟨rfl, rfl⟩, ?_⟩
  intro ops c' h
  have hinv := Cell.run_inv Deleter.nullDeleter ops _ c' rfl (by simp [Cell.init]) h
  simp [Cell.frees, hinv.1, Deleter.frees]

/-- Witness for C8: dropping the single copy of a null_deleter view invokes
the (no-op) deleter once and frees nothing. -/
theorem C8_views_noop_deleter_witness :
    (⟨Deleter.nullDeleter, 0, 1⟩ : Cell).frees = 0 :=
  C8_views_noop_deleter.2 [HOp.drop] ⟨Deleter.nullDeleter, 0, 1⟩ (by decide)

/-- C9: two calls to subject() — on the same certificate value, or on any two
certificate values that compare equal — return views referencing the same
underlying name address, and likewise for issuer(). -/
theorem C9_view_aliasing (heap : Addr → X509Obj) (c c' : certificate)
    (h : certificate_eq c c' = true) :
    (certificate.subject heap c).handle.addr =
      (certificate.subject heap c').handle.addr ∧
    (certificate.issuer heap c).handle.addr =
      (certificate.issuer heap c').handle.addr := by
  have hraw : c.m_x509.addr = c'.m_x509.addr := by
    simpa [certificate_eq, certificate.raw] using h
  exact ⟨by simp [certificate.subject, hraw], by simp [certificate.issuer, hraw]⟩

/-- Witness for C9: two calls on the same certificate value alias. -/
theorem C9_view_aliasing_witness :
    (certificate.subject (fun _ => ⟨10, 11⟩) ⟨⟨3, Deleter.x509Free⟩⟩).handle.addr =
      (certificate.subject (fun _ => ⟨10, 11⟩) ⟨⟨3, Deleter.x509Free⟩⟩).handle.addr ∧
    (certificate.issuer (fun _ => ⟨10, 11⟩) ⟨⟨3, Deleter.x509Free⟩⟩).handle.addr =
      (certificate.issuer (fun _ => ⟨10, 11⟩) ⟨⟨3, Deleter.x509Free⟩⟩).handle.addr :=
  C9_view_aliasing (fun _ => ⟨10, 11⟩) ⟨⟨3, Deleter.x509Free⟩⟩ ⟨⟨3, Deleter.x509Free⟩⟩
    (by decide)

/-- C10: enable_blinding passes the caller-supplied BN_CTX straight through
to the library call: the wrapper's only effect on ctx is passing it, it never
frees or stores it, the wrapper object is returned unchanged, and all of this
holds both when the library call succeeds and when the wrapper raises a
CryptographicError. -/
theorem C10_enable_blinding_frame (lib : Addr → Addr → Int) (k : rsa_key)
    (ctx : Addr) (queue : List Nat) :
    ((rsa_key.enable_blinding lib k ctx queue).2.1 = k) ∧
    ((rsa_key.enable_blinding lib k ctx queue).2.2 = [Effect.passedToLibrary ctx]) ∧
    (Effect.freed ctx ∉ (rsa_key.enable_blinding lib k ctx queue).2.2) ∧
    (Effect.stored ctx ∉ (rsa_key.enable_blinding lib k ctx queue).2.2) ∧
    (lib k.raw ctx = 0 →
      (rsa_key.enable_blinding lib k ctx queue).1 =
        Except.error (Err.cryptographicError queue)) ∧
    (lib k.raw ctx ≠ 0 →
      (rsa_key.enable_blinding lib k ctx queue).1 = Except.ok ()) := by
  refine ⟨rfl, rfl, by simp [rsa_key.enable_blinding],
    by simp [rsa_key.enable_blinding], ?_, ?_⟩
  · intro h
    have h' : lib k.m_rsa.addr ctx = 0 := h
    simp [rsa_key.enable_blinding, throw_error_if_not, h']
  · intro h
    have h' : ¬ lib k.m_rsa.addr ctx = 0 := h
    simp [rsa_key.enable_blinding, throw_error_if_not, h']

/-- Witness for C10: with a library returning 1, enable_blinding on the key
at address 3 with ctx 5 succeeds and leaves the key unchanged. -/
theorem C10_enable_blinding_frame_witness :
    (rsa_key.enable_blinding (fun _ _ => 1) ⟨⟨3, Deleter.rsaFree⟩⟩ 5 []).1 =
      Except.ok () ∧
    (rsa_key.enable_blinding (fun _ _ => 1) ⟨⟨3, Deleter.rsaFree⟩⟩ 5 []).2.1 =
      ⟨⟨3, Deleter.rsaFree⟩⟩ :=
  ⟨(C10_enable_blinding_frame (fun _ _ => 1) ⟨⟨3, Deleter.rsaFree⟩⟩ 5 []).2.2.2.2.2
      (by decide),
   (C10_enable_blinding_frame (fun _ _ => 1) ⟨⟨3, Deleter.rsaFree⟩⟩ 5 []).1⟩

end Cryptoplus
